import Mathlib

/-!
Shallow embedding of `src/expenseTracker/expense_tracker.py` (class
`ExpenseTracker`), with the theorems settling the spec claims about it.

Modelling conventions:
* Python `float` amounts are modelled as exact rationals (`ℚ`); the spec's
  round-trip requirement is stated "modulo float representation", and
  Python's `repr`/`float()` pair round-trips floats exactly.
* `datetime` values are modelled by the `Date` structure below, down to
  second precision (Python's `datetime.now()` carries sub-minute precision;
  microseconds are elided since second precision already exhibits the
  truncation performed by the `"%Y-%m-%d %H:%M"` format).
* Python truthiness on optional `int` arguments (`if month:` is false for
  both `None` and `0`) is modelled by `truthy : Option ℕ → Bool`, and on
  optional `str` arguments by `strTruthy`.
* Printing is modelled by returning the reported outcome (error flags,
  messages) instead of writing to stdout.
-/

/-- A `datetime` value at second precision (microseconds elided). -/
structure Date where
  year : ℕ
  month : ℕ
  day : ℕ
  hour : ℕ
  minute : ℕ
  second : ℕ
deriving DecidableEq, Repr

/-- One record of `self.expenses`: keys `date`, `description`, `category`,
`amount` of the per-expense dict. -/
structure Expense where
  date : Date
  description : String
  category : String
  amount : ℚ
deriving DecidableEq, Repr

/-- `self.categories`: the fixed closed category list from `__init__`. -/
def categories : List String :=
  ["Food", "Transportation", "Housing", "Entertainment",
   "Utilities", "Healthcare", "Education", "Shopping", "Other"]

/-- `self.category_budgets`: a Python dict modelled as an association list
(keys unique in practice; `List.lookup` returns the first binding, as a dict
lookup would). -/
abbrev Budgets := List (String × ℚ)

/-- Python truthiness of an optional integer: `None` and `0` are falsy. -/
def truthy (o : Option ℕ) : Bool :=
  match o with
  | none => false
  | some n => n ≠ 0

/-- Python truthiness of an optional string: `None` and `""` are falsy. -/
def strTruthy (o : Option String) : Bool :=
  match o with
  | none => false
  | some s => s ≠ ""

/-! ### A model of Python's `float()` on strings

`add_expense` validates its `amount` argument with `float(amount)`,
catching `ValueError`. We model `float()` on plain decimal literals:
an optional sign followed by digits with an optional single decimal
point (at least one digit overall). Exponents, `inf`/`nan`, underscores
and surrounding whitespace are not modelled; none of the claims depend
on them. -/

/-- Decimal digit test on characters. -/
def isDigit (c : Char) : Bool := decide ('0' ≤ c) && decide (c ≤ '9')

/-- Numeric value of a decimal digit character. -/
def digitVal (c : Char) : ℕ := c.toNat - '0'.toNat

/-- Value of a digit string read in base 10. -/
def digitsToNat (cs : List Char) : ℕ :=
  cs.foldl (fun a c => a * 10 + digitVal c) 0

/-- Parse an unsigned decimal literal (`"12"`, `"12.5"`, `"12."`, `".5"`). -/
def parseUnsigned (cs : List Char) : Option ℚ :=
  let intPart := cs.takeWhile isDigit
  let rest := cs.dropWhile isDigit
  match rest with
  | [] =>
      if intPart.isEmpty then none else some (digitsToNat intPart : ℚ)
  | '.' :: fracCs =>
      if fracCs.all isDigit && (!intPart.isEmpty || !fracCs.isEmpty) then
        some ((digitsToNat intPart : ℚ) + (digitsToNat fracCs : ℚ) / 10 ^ fracCs.length)
      else none
  | _ => none

/-- Model of Python's `float()` on a string (decimal literals only): an
optional `+`/`-` sign followed by an unsigned decimal literal. Returns
`none` where `float()` raises `ValueError`. -/
def pyFloat (s : String) : Option ℚ :=
  match s.data with
  | '-' :: rest => (parseUnsigned rest).map (fun q => -q)
  | '+' :: rest => parseUnsigned rest
  | cs => parseUnsigned cs

/-! ### Aggregator: `get_summary` -/

/-- One `summary[category] += amount` step on a `defaultdict(float)`
modelled as an association list in insertion order of first appearance. -/
def addToSummary (s : List (String × ℚ)) (cat : String) (amt : ℚ) :
    List (String × ℚ) :=
  match s with
  | [] => [(cat, amt)]
  | (c, v) :: rest =>
      if c = cat then (c, v + amt) :: rest
      else (c, v) :: addToSummary rest cat amt

/-- Sum of the values of a per-category mapping. -/
def sumValues (s : List (String × ℚ)) : ℚ := (s.map Prod.snd).sum

/-- The `continue` conditions of `get_summary`'s loop: an expense is kept
when no truthy filter disagrees with its date. -/
def matchesMY (month year : Option ℕ) (e : Expense) : Bool :=
  (!truthy month || e.date.month == month.getD 0) &&
  (!truthy year || e.date.year == year.getD 0)

/-- `get_summary(self, month=None, year=None)`: one pass over the expenses,
accumulating the per-category `defaultdict` and the running total. -/
def get_summary (expenses : List Expense) (month year : Option ℕ) :
    List (String × ℚ) × ℚ :=
  expenses.foldl
    (fun acc e =>
      if matchesMY month year e then
        (addToSummary acc.1 e.category e.amount, acc.2 + e.amount)
      else acc)
    ([], 0)

/-! ### Budget evaluator: the per-category logic of `show_summary` -/

/-- Classification of one category's spend against its budget. -/
inductive BudgetStatus where
  | noBudget
  | underBudget
  | overBudget
deriving DecidableEq, Repr

/-- Result of evaluating one summary line of `show_summary`. -/
structure Evaluation where
  spent : ℚ
  budget : ℚ
  remaining : ℚ
  status : BudgetStatus
deriving DecidableEq, Repr

/-- The body of `show_summary`'s per-category loop: `budget =
self.category_budgets.get(category, 0)`, `remaining = budget - amount if
budget > 0 else 0`, and the status chosen by the nested `if`s. (When over
budget the code computes `remaining` but reports only "OVER BUDGET!".) -/
def evaluate (amount : ℚ) (budgets : Budgets) (category : String) :
    Evaluation :=
  let budget := (budgets.lookup category).getD 0
  let remaining := if budget > 0 then budget - amount else 0
  if budget > 0 then
    if amount > budget then
      ⟨amount, budget, remaining, .overBudget⟩
    else
      ⟨amount, budget, remaining, .underBudget⟩
  else
    ⟨amount, budget, remaining, .noBudget⟩

/-! ### Alerting: `check_budget_alert` -/

/-- The `category_total` recomputed by `check_budget_alert`: the sum of
amounts of the expenses of that category dated in `now`'s month and year,
over the full history. -/
def currentMonthCategoryTotal (expenses : List Expense) (category : String)
    (now : Date) : ℚ :=
  ((expenses.filter (fun e =>
      e.category == category &&
      e.date.month == now.month &&
      e.date.year == now.year)).map Expense.amount).sum

/-- `check_budget_alert(self, category, amount)`: returns whether the
over-budget alert is printed. The `amount` parameter is accepted but, as in
the code, unused: the total is recomputed from `self.expenses`. -/
def check_budget_alert (expenses : List Expense) (budgets : Budgets)
    (category : String) (amount : ℚ) (now : Date) : Bool :=
  let budget := (budgets.lookup category).getD 0
  if budget ≤ 0 then false
  else decide (currentMonthCategoryTotal expenses category now > budget)

/-! ### `add_expense` -/

/-- Outcome of `add_expense`: the resulting expense list, whether
`save_data` ran, whether the budget alert fired, and whether the
"Invalid amount" error was reported. -/
structure AddResult where
  expenses : List Expense
  saved : Bool
  alerted : Bool
  errored : Bool
deriving DecidableEq, Repr

/-- `add_expense(self, description, category, amount)`: remap an
unrecognized category to `"Other"`, parse the amount (reporting an error
and returning on `ValueError`), append the new expense, save, and run
`check_budget_alert`. `now` stands for `datetime.now()`. -/
def add_expense (expenses : List Expense) (budgets : Budgets)
    (description category amountStr : String) (now : Date) : AddResult :=
  let category := if categories.contains category then category else "Other"
  match pyFloat amountStr with
  | none => ⟨expenses, false, false, true⟩
  | some amount =>
      let e : Expense := ⟨now, description, category, amount⟩
      let expenses := expenses ++ [e]
      ⟨expenses, true, check_budget_alert expenses budgets category amount now, false⟩

/-! ### `view_expenses` filtering -/

/-- The list built by `view_expenses(self, filter_category=None, month=None,
year=None)` before display: the category filter (applied when
`filter_category` is truthy), then, when `month or year` is truthy, the
combined month/year filter. -/
def view_filtered (expenses : List Expense) (filter_category : Option String)
    (month year : Option ℕ) : List Expense :=
  let filtered :=
    if strTruthy filter_category then
      expenses.filter (fun e => e.category == filter_category.getD "")
    else expenses
  if truthy month || truthy year then
    filtered.filter (fun e =>
      (!truthy month || e.date.month == month.getD 0) &&
      (!truthy year || e.date.year == year.getD 0))
  else filtered

/-- The `total` printed at the end of `view_expenses` (when the filtered
list is non-empty): `sum(e['amount'] for e in filtered)`. -/
def view_total (expenses : List Expense) (filter_category : Option String)
    (month year : Option ℕ) : ℚ :=
  ((view_filtered expenses filter_category month year).map Expense.amount).sum

/-! ### Date formatting: `strftime` / `strptime`

`save_data` writes dates as `strftime("%Y-%m-%d %H:%M")` and `load_data`
parses them back with `strptime` of the same format; `spending_trends`
labels months as `strftime("%Y-%m")` and `monthly_report` itemizes dates
as `strftime("%Y-%m-%d")`. `%Y`/`%m`/`%d`/`%H`/`%M` are zero-padded to
4/2/2/2/2 digits. -/

/-- The character of a decimal digit (`'0'`-`'9'` for inputs below 10). -/
def digitChar (n : ℕ) : Char := Char.ofNat ('0'.toNat + n)

/-- The two zero-padded decimal digits of `n < 100` (`%m`, `%d`, `%H`, `%M`). -/
def pad2 (n : ℕ) : List Char := [digitChar (n / 10), digitChar (n % 10)]

/-- The four zero-padded decimal digits of `n < 10000` (`%Y`). -/
def pad4 (n : ℕ) : List Char :=
  [digitChar (n / 1000), digitChar (n / 100 % 10),
   digitChar (n / 10 % 10), digitChar (n % 10)]

/-- `d.strftime("%Y-%m-%d %H:%M")`: the date format of the CSV store. -/
def formatDateMinute (d : Date) : String :=
  ⟨pad4 d.year ++ '-' :: pad2 d.month ++ '-' :: pad2 d.day ++
   ' ' :: pad2 d.hour ++ ':' :: pad2 d.minute⟩

/-- `datetime.strptime(s, "%Y-%m-%d %H:%M")`, restricted to the fixed-width
strings `save_data` writes (variable-width fields and `strptime`'s range
and calendar validation are not modelled; the round-trip theorems exercise
the parse only on the formatter's output). Seconds come back as `0`: the
format has no seconds field. -/
def parseDateMinute (s : String) : Option Date :=
  match s.data with
  | [y1, y2, y3, y4, '-', m1, m2, '-', d1, d2, ' ', h1, h2, ':', n1, n2] =>
      if [y1, y2, y3, y4, m1, m2, d1, d2, h1, h2, n1, n2].all isDigit then
        some ⟨digitsToNat [y1, y2, y3, y4], digitsToNat [m1, m2],
              digitsToNat [d1, d2], digitsToNat [h1, h2],
              digitsToNat [n1, n2], 0⟩
      else none
  | _ => none

/-- `d.strftime("%Y-%m-%d")`: the date format of report items. -/
def formatDateDay (d : Date) : String :=
  ⟨pad4 d.year ++ '-' :: pad2 d.month ++ '-' :: pad2 d.day⟩

/-- The label `d.strftime('%Y-%m')` that `spending_trends` groups by. -/
def monthLabel (d : Date) : String := ⟨pad4 d.year ++ '-' :: pad2 d.month⟩

/-! ### Persistence: `save_data` / `load_data`, `save_budgets` / `load_budgets`

A CSV row is modelled with its `date` field as the written string and the
`description`, `category` and `amount` fields carried exactly: the `csv`
module's quoting round-trips arbitrary text fields, and Python's float
`repr`/`float()` pair round-trips amounts exactly, so only the date field's
serialization is interesting. The header row written by `DictWriter` and
consumed by `DictReader` is likewise elided. -/

/-- One row of `expenses.csv` (fields `date, description, category, amount`). -/
structure CsvRow where
  date : String
  description : String
  category : String
  amount : ℚ
deriving DecidableEq, Repr

/-- `save_data(self)`: each expense is written with its date re-serialized
by `strftime("%Y-%m-%d %H:%M")`. -/
def save_data (expenses : List Expense) : List CsvRow :=
  expenses.map (fun e =>
    ⟨formatDateMinute e.date, e.description, e.category, e.amount⟩)

/-- `load_data(self)`: each row's `amount` is read back with `float` and
its `date` with `strptime("%Y-%m-%d %H:%M")` (which raises — modelled as
`none` for the whole load — on a malformed date). -/
def load_data : List CsvRow → Option (List Expense)
  | [] => some []
  | r :: rs =>
      match parseDateMinute r.date, load_data rs with
      | some d, some es => some (⟨d, r.description, r.category, r.amount⟩ :: es)
      | _, _ => none

/-- `save_budgets(self)`: `json.dump` of the budget dict. JSON objects
round-trip string keys and (`repr`-printed) float values exactly, so the
file is modelled as the association list itself. -/
def save_budgets (budgets : Budgets) : Budgets := budgets

/-- `load_budgets(self)`: `json.load` of the budget file. -/
def load_budgets (file : Budgets) : Budgets := file

/-- Truncation of a date to the minute precision of the CSV date format. -/
def truncToMinute (d : Date) : Date :=
  ⟨d.year, d.month, d.day, d.hour, d.minute, 0⟩

/-- An expense with its date truncated to minute precision. -/
def truncExpense (e : Expense) : Expense :=
  ⟨truncToMinute e.date, e.description, e.category, e.amount⟩

/-! ### `spending_trends`

`spending_trends` builds a DataFrame, labels each row with
`date.strftime('%Y-%m')` and runs `groupby('month_year')['amount'].sum()`.
A pandas `groupby` with its default `sort=True` yields the distinct keys in
ascending (for strings: lexicographic) order, each with the sum of the
`amount` column over its group. -/

/-- Lexicographic comparison of character lists (the string order pandas
sorts group keys by). -/
def charsLe : List Char → List Char → Bool
  | [], _ => true
  | _ :: _, [] => false
  | a :: as, b :: bs => if a < b then true else if a = b then charsLe as bs else false

/-- Lexicographic order on strings, as a relation for `List.insertionSort`. -/
def labelLe (s t : String) : Prop := charsLe s.data t.data = true

instance : DecidableRel labelLe := fun s t => by unfold labelLe; infer_instance

/-- The sum of the amounts of the expenses labelled `l` (one group of the
`groupby`). -/
def labelTotal (expenses : List Expense) (l : String) : ℚ :=
  ((expenses.filter (fun e => monthLabel e.date == l)).map Expense.amount).sum

/-- `spending_trends(self)`: one `(month label, summed amount)` point per
distinct label, in ascending label order. -/
def spending_trends (expenses : List Expense) : List (String × ℚ) :=
  (((expenses.map (fun e => monthLabel e.date)).dedup).insertionSort labelLe).map
    (fun l => (l, labelTotal expenses l))

/-! ### `monthly_report` -/

/-- `calendar.month_name[m]` for `m` in `1..12` (`""` at index `0`, as in
Python's `calendar.month_name`). -/
def month_name (m : ℕ) : String :=
  ["", "January", "February", "March", "April", "May", "June", "July",
   "August", "September", "October", "November", "December"].getD m ""

/-- One entry of a report's itemized `"expenses"` list. -/
structure ReportItem where
  date : String
  description : String
  category : String
  amount : ℚ
deriving DecidableEq, Repr

/-- The `report` dict assembled by `monthly_report`. -/
structure Report where
  month : String
  year : ℕ
  total : ℚ
  by_category : List (String × ℚ)
  expenses : List ReportItem
deriving DecidableEq, Repr

/-- The itemized entry built from one expense (`date` re-serialized as
`"%Y-%m-%d"`). -/
def mkReportItem (e : Expense) : ReportItem :=
  ⟨formatDateDay e.date, e.description, e.category, e.amount⟩

/-- What `monthly_report` reports: either the "No expenses for ..." message
or the report written to `filename`. -/
inductive ReportOutcome where
  | noData (message : String)
  | written (filename : String) (report : Report)
deriving DecidableEq, Repr

/-- Overwrite-or-add a file in the modelled report directory (writing
`filename` replaces any previous artifact of the same name). -/
def writeFile (files : List (String × Report)) (filename : String)
    (r : Report) : List (String × Report) :=
  (filename, r) :: files.filter (fun f => f.1 != filename)

/-- `monthly_report(self, month=None, year=None)`: default a falsy month or
year to `datetime.now()`'s, filter the expenses to that exact month and
year, report "no data" (writing nothing) when the filtered list is empty,
and otherwise build the report and write it to
`expense_report_{year}_{month}.json`. Returns the outcome and the report
directory after the call. -/
def monthly_report (expenses : List Expense) (month year : Option ℕ)
    (now : Date) (files : List (String × Report)) :
    ReportOutcome × List (String × Report) :=
  let m := if truthy month then month.getD 0 else now.month
  let y := if truthy year then year.getD 0 else now.year
  let month_expenses := expenses.filter
    (fun e => e.date.month == m && e.date.year == y)
  if month_expenses.isEmpty then
    (.noData ("No expenses for " ++ month_name m ++ " " ++ toString y), files)
  else
    let report : Report :=
      ⟨month_name m, y, (month_expenses.map Expense.amount).sum,
       month_expenses.foldl (fun acc e => addToSummary acc e.category e.amount) [],
       month_expenses.map mkReportItem⟩
    let filename := "expense_report_" ++ toString y ++ "_" ++ toString m ++ ".json"
    (.written filename report, writeFile files filename report)

/-! ### Helper lemmas -/

/-- One `defaultdict` accumulation step adds its amount to the value sum. -/
lemma sumValues_addToSummary (s : List (String × ℚ)) (cat : String) (amt : ℚ) :
    sumValues (addToSummary s cat amt) = sumValues s + amt := by
  induction s with
  | nil => simp [addToSummary, sumValues]
  | cons p rest ih =>
      obtain ⟨c, v⟩ := p
      by_cases h : c = cat
      · subst h
        simp [addToSummary, sumValues]
        ring
      · simp [addToSummary, h, sumValues] at ih ⊢
        rw [ih]
        ring

/-- The loop body of `get_summary`, abstracted. -/
def summaryStep (month year : Option ℕ) (acc : List (String × ℚ) × ℚ)
    (e : Expense) : List (String × ℚ) × ℚ :=
  if matchesMY month year e then
    (addToSummary acc.1 e.category e.amount, acc.2 + e.amount)
  else acc

lemma get_summary_eq_foldl (expenses : List Expense) (month year : Option ℕ) :
    get_summary expenses month year =
      expenses.foldl (summaryStep month year) ([], 0) := rfl

/-- Running total of `get_summary`'s loop from any accumulator. -/
lemma summary_foldl_snd (expenses : List Expense) (month year : Option ℕ)
    (acc : List (String × ℚ) × ℚ) :
    (expenses.foldl (summaryStep month year) acc).2 =
      acc.2 + ((expenses.filter (matchesMY month year)).map Expense.amount).sum := by
  induction expenses generalizing acc with
  | nil => simp
  | cons e rest ih =>
      by_cases h : matchesMY month year e
      · simp [summaryStep, h, List.filter_cons, ih]
        ring
      · simp only [List.foldl_cons, summaryStep, h, if_neg, Bool.false_eq_true,
          not_false_iff, List.filter_cons]
        simp [h, ih]

/-- Value sum of `get_summary`'s mapping from any accumulator. -/
lemma summary_foldl_sumValues (expenses : List Expense) (month year : Option ℕ)
    (acc : List (String × ℚ) × ℚ) :
    sumValues (expenses.foldl (summaryStep month year) acc).1 =
      sumValues acc.1 +
        ((expenses.filter (matchesMY month year)).map Expense.amount).sum := by
  induction expenses generalizing acc with
  | nil => simp
  | cons e rest ih =>
      by_cases h : matchesMY month year e
      · simp [summaryStep, h, List.filter_cons, ih, sumValues_addToSummary]
        ring
      · simp only [List.foldl_cons, summaryStep, h, if_neg, Bool.false_eq_true,
          not_false_iff, List.filter_cons]
        simp [h, ih]

/-- When nothing matches, `get_summary`'s loop never leaves the accumulator. -/
lemma summary_foldl_of_filter_nil (expenses : List Expense) (month year : Option ℕ)
    (acc : List (String × ℚ) × ℚ)
    (h : expenses.filter (matchesMY month year) = []) :
    expenses.foldl (summaryStep month year) acc = acc := by
  induction expenses generalizing acc with
  | nil => simp
  | cons e rest ih =>
      rw [List.filter_cons] at h
      by_cases he : matchesMY month year e
      · simp [he] at h
      · rw [if_neg (by simp [he])] at h
        simp [summaryStep, he, ih _ h]

/-! ### Claim theorems -/

/-- C1, counterexample: with the empty store, empty budgets and amount
string `"-5"`, the amount parses as the (negative) number `-5`, yet
`add_expense` appends the record and reports no error — contradicting the
claim that a record is appended only when the amount parses as a
*non-negative* number, and that otherwise the sequence is left unchanged
with an error reported. -/
theorem c1_add_expense_counterexample :
    pyFloat "-5" = some (-5) ∧ ¬ (0 : ℚ) ≤ -5 ∧
    (add_expense [] [] "x" "Food" "-5" ⟨2024, 1, 1, 0, 0, 0⟩).expenses =
      [⟨⟨2024, 1, 1, 0, 0, 0⟩, "x", "Food", -5⟩] ∧
    (add_expense [] [] "x" "Food" "-5" ⟨2024, 1, 1, 0, 0, 0⟩).errored = false := by
  refine ⟨by decide, by norm_num, by decide, by decide⟩

/-- C1, amended: `add_expense` appends a new record (and reports success)
if and only if the amount string parses as a number — the sign is not
checked, so negative amounts are accepted and appended. When the amount
fails to parse, the error is reported and the transaction sequence is left
unchanged: nothing is saved and no alert is checked. -/
theorem c1_add_expense (expenses : List Expense) (budgets : Budgets)
    (description category amountStr : String) (now : Date) :
    (∀ q, pyFloat amountStr = some q →
      (add_expense expenses budgets description category amountStr now).expenses =
        expenses ++ [⟨now, description,
          if categories.contains category then category else "Other", q⟩] ∧
      (add_expense expenses budgets description category amountStr now).saved = true ∧
      (add_expense expenses budgets description category amountStr now).errored = false) ∧
    (pyFloat amountStr = none →
      (add_expense expenses budgets description category amountStr now).expenses =
        expenses ∧
      (add_expense expenses budgets description category amountStr now).saved = false ∧
      (add_expense expenses budgets description category amountStr now).alerted = false ∧
      (add_expense expenses budgets description category amountStr now).errored = true) := by
  constructor
  · intro q hq
    simp [add_expense, hq]
  · intro hq
    simp [add_expense, hq]

/-- C1, witness: a parseable amount `"7"` is appended with success; an
unparseable amount `"abc"` reports the error and leaves the empty store
empty with no save and no alert. -/
theorem c1_add_expense_witness :
    (add_expense [] [] "Lunch" "Food" "7" ⟨2024, 1, 2, 3, 4, 5⟩).expenses =
      [⟨⟨2024, 1, 2, 3, 4, 5⟩, "Lunch",
        if categories.contains "Food" then "Food" else "Other", 7⟩] ∧
    (add_expense [] [] "x" "Food" "abc" ⟨2024, 1, 2, 3, 4, 5⟩).expenses = [] ∧
    (add_expense [] [] "x" "Food" "abc" ⟨2024, 1, 2, 3, 4, 5⟩).errored = true := by
  refine ⟨?_, ?_, ?_⟩
  · have h := (c1_add_expense [] [] "Lunch" "Food" "7" ⟨2024, 1, 2, 3, 4, 5⟩).1
      7 (by decide)
    simpa using h.1
  · exact ((c1_add_expense [] [] "x" "Food" "abc" ⟨2024, 1, 2, 3, 4, 5⟩).2
      (by decide)).1
  · exact ((c1_add_expense [] [] "x" "Food" "abc" ⟨2024, 1, 2, 3, 4, 5⟩).2
      (by decide)).2.2.2

/-- C4: a category whose budget entry is absent or zero is classified
`no-budget` by the summary's per-category evaluation, with no remaining
headroom reported, and `check_budget_alert` never fires for it, regardless
of the spent amount. -/
theorem c4_no_budget_status (spent : ℚ) (budgets : Budgets) (category : String)
    (h : budgets.lookup category = none ∨ budgets.lookup category = some 0) :
    (evaluate spent budgets category).status = BudgetStatus.noBudget ∧
    (evaluate spent budgets category).remaining = 0 ∧
    ∀ (expenses : List Expense) (amount : ℚ) (now : Date),
      check_budget_alert expenses budgets category amount now = false := by
  have hb : (budgets.lookup category).getD 0 = 0 := by
    rcases h with h | h <;> simp [h]
  refine ⟨?_, ?_, ?_⟩
  · simp [evaluate, hb]
  · simp [evaluate, hb]
  · intro expenses amount now
    simp [check_budget_alert, hb]

/-- C4, witness: with budgets `{Transportation: 3}`, the category `Food`
(absent) evaluates to `no-budget` with remaining `0` and never alerts, even
with a spend of `100`. -/
theorem c4_no_budget_status_witness :
    (evaluate 100 [("Transportation", 3)] "Food").status = BudgetStatus.noBudget ∧
    (evaluate 100 [("Transportation", 3)] "Food").remaining = 0 ∧
    check_budget_alert [⟨⟨2024, 1, 1, 0, 0, 0⟩, "a", "Food", 100⟩]
      [("Transportation", 3)] "Food" 100 ⟨2024, 1, 1, 0, 0, 0⟩ = false := by
  have h := c4_no_budget_status 100 [("Transportation", 3)] "Food"
    (Or.inl (by decide))
  exact ⟨h.1, h.2.1, h.2.2 _ 100 _⟩

/-- C5: with a positive budget, a spend exactly equal to the budget is
classified `under-budget` with remaining `0`; the `over-budget`
classification requires the spend to strictly exceed the budget, and the
alert likewise stays silent when the recomputed total merely equals the
budget. -/
theorem c5_equality_under_budget (budgets : Budgets) (category : String)
    (spent : ℚ) (hpos : 0 < (budgets.lookup category).getD 0)
    (heq : spent = (budgets.lookup category).getD 0) :
    (evaluate spent budgets category).status = BudgetStatus.underBudget ∧
    (evaluate spent budgets category).remaining = 0 ∧
    (∀ spent' : ℚ, (evaluate spent' budgets category).status =
        BudgetStatus.overBudget → (budgets.lookup category).getD 0 < spent') ∧
    ∀ (expenses : List Expense) (amount : ℚ) (now : Date),
      currentMonthCategoryTotal expenses category now =
        (budgets.lookup category).getD 0 →
      check_budget_alert expenses budgets category amount now = false := by
  refine ⟨?_, ?_, ?_, ?_⟩
  · simp [evaluate, hpos, heq]
  · simp [evaluate, hpos, heq]
  · intro spent' hst
    by_contra hle
    push_neg at hle
    simp [evaluate, hpos, not_lt.mpr hle] at hst
  · intro expenses amount now htot
    simp [check_budget_alert, not_le.mpr hpos, htot]

/-- C5, witness: budget `{Food: 4}` with spend `4` is under budget with
remaining `0`, and the alert does not fire when the month's Food total is
exactly `4`. -/
theorem c5_equality_under_budget_witness :
    (evaluate 4 [("Food", 4)] "Food").status = BudgetStatus.underBudget ∧
    (evaluate 4 [("Food", 4)] "Food").remaining = 0 ∧
    check_budget_alert [⟨⟨2024, 1, 1, 0, 0, 0⟩, "a", "Food", 4⟩] [("Food", 4)]
      "Food" 4 ⟨2024, 1, 1, 0, 0, 0⟩ = false := by
  have h := c5_equality_under_budget [("Food", 4)] "Food" 4 (by norm_num) (by norm_num)
  refine ⟨h.1, h.2.1, h.2.2.2 _ 4 _ ?_⟩
  show ([((4 : ℚ))]).sum = ((4 : ℚ))
  norm_num

/-- C6: for every expense list and every optional month/year filter, the
grand total of `get_summary` is the sum of the amounts of the matching
expenses, the values of its per-category mapping sum to that grand total,
and an empty matching set yields the empty mapping and a zero total. -/
theorem c6_get_summary_totals (expenses : List Expense) (month year : Option ℕ) :
    (get_summary expenses month year).2 =
      ((expenses.filter (matchesMY month year)).map Expense.amount).sum ∧
    sumValues (get_summary expenses month year).1 =
      (get_summary expenses month year).2 ∧
    (expenses.filter (matchesMY month year) = [] →
      get_summary expenses month year = ([], 0)) := by
  refine ⟨?_, ?_, ?_⟩
  · rw [get_summary_eq_foldl, summary_foldl_snd]
    simp
  · rw [get_summary_eq_foldl, summary_foldl_snd, summary_foldl_sumValues]
    simp [sumValues]
  · intro h
    rw [get_summary_eq_foldl, summary_foldl_of_filter_nil _ _ _ _ h]

/-- C6, witness: filtering a one-expense January store by month `2` matches
nothing, so `get_summary` returns the empty mapping and total `0`. -/
theorem c6_get_summary_totals_witness :
    get_summary [⟨⟨2024, 1, 1, 0, 0, 0⟩, "a", "Food", 5⟩] (some 2) none = ([], 0) := by
  exact (c6_get_summary_totals [⟨⟨2024, 1, 1, 0, 0, 0⟩, "a", "Food", 5⟩]
    (some 2) none).2.2 (by decide)

/-- C3: `check_budget_alert` fires if and only if the category has a
positive budget and the category's recomputed current-month total strictly
exceeds it; and the Coffee scenario — adding `4.50` of `Food` with a Food
budget of `4.00` to an empty store — fires the alert. -/
theorem c3_check_budget_alert :
    (∀ (expenses : List Expense) (budgets : Budgets) (category : String)
        (amount : ℚ) (now : Date),
      check_budget_alert expenses budgets category amount now = true ↔
        0 < (budgets.lookup category).getD 0 ∧
        (budgets.lookup category).getD 0 <
          currentMonthCategoryTotal expenses category now) ∧
    (add_expense [] [("Food", 4)] "Coffee" "Food" "4.50"
      ⟨2025, 10, 12, 9, 30, 0⟩).alerted = true := by
  have key : ∀ (expenses : List Expense) (budgets : Budgets) (category : String)
      (amount : ℚ) (now : Date),
      check_budget_alert expenses budgets category amount now = true ↔
        0 < (budgets.lookup category).getD 0 ∧
        (budgets.lookup category).getD 0 <
          currentMonthCategoryTotal expenses category now := by
    intro expenses budgets category amount now
    unfold check_budget_alert
    show (if (List.lookup category budgets).getD 0 ≤ 0 then false
          else decide (currentMonthCategoryTotal expenses category now >
            (List.lookup category budgets).getD 0)) = true ↔ _
    split_ifs with h
    · simp only [Bool.false_eq_true, false_iff]
      rintro ⟨h0, -⟩
      exact absurd h0 (not_lt.mpr h)
    · push_neg at h
      simp [h]
  refine ⟨key, ?_⟩
  rw [show (add_expense [] [("Food", 4)] "Coffee" "Food" "4.50"
        ⟨2025, 10, 12, 9, 30, 0⟩).alerted =
      check_budget_alert
        [⟨⟨2025, 10, 12, 9, 30, 0⟩, "Coffee", "Food",
          ((4 : ℕ) : ℚ) + ((50 : ℕ) : ℚ) / 10 ^ 2⟩]
        [("Food", 4)] "Food" (((4 : ℕ) : ℚ) + ((50 : ℕ) : ℚ) / 10 ^ 2)
        ⟨2025, 10, 12, 9, 30, 0⟩ from rfl, key]
  show (0 : ℚ) < 4 ∧ (4 : ℚ) < ((4 : ℕ) : ℚ) + ((50 : ℕ) : ℚ) / 10 ^ 2 + 0
  norm_num

/-! ### Date round-trip lemmas for C2 -/

lemma digitVal_digitChar {n : ℕ} (h : n < 10) : digitVal (digitChar n) = n := by
  interval_cases n <;> decide

lemma isDigit_digitChar {n : ℕ} (h : n < 10) : isDigit (digitChar n) = true := by
  interval_cases n <;> decide

/-- `parseDateMinute` on an explicitly shaped 16-character string. -/
lemma parseDateMinute_explicit (y1 y2 y3 y4 m1 m2 d1 d2 h1 h2 n1 n2 : Char) :
    parseDateMinute ⟨[y1, y2, y3, y4, '-', m1, m2, '-', d1, d2, ' ',
        h1, h2, ':', n1, n2]⟩ =
      if [y1, y2, y3, y4, m1, m2, d1, d2, h1, h2, n1, n2].all isDigit then
        some ⟨digitsToNat [y1, y2, y3, y4], digitsToNat [m1, m2],
              digitsToNat [d1, d2], digitsToNat [h1, h2],
              digitsToNat [n1, n2], 0⟩
      else none := rfl

/-- `formatDateMinute` as an explicit character list. -/
lemma formatDateMinute_explicit (d : Date) :
    formatDateMinute d =
      ⟨[digitChar (d.year / 1000), digitChar (d.year / 100 % 10),
        digitChar (d.year / 10 % 10), digitChar (d.year % 10), '-',
        digitChar (d.month / 10), digitChar (d.month % 10), '-',
        digitChar (d.day / 10), digitChar (d.day % 10), ' ',
        digitChar (d.hour / 10), digitChar (d.hour % 10), ':',
        digitChar (d.minute / 10), digitChar (d.minute % 10)]⟩ := rfl

lemma digitsToNat_two {a b : ℕ} (ha : a < 10) (hb : b < 10) :
    digitsToNat [digitChar a, digitChar b] = a * 10 + b := by
  simp [digitsToNat, digitVal_digitChar ha, digitVal_digitChar hb]

lemma digitsToNat_four {a b c e : ℕ} (ha : a < 10) (hb : b < 10) (hc : c < 10)
    (he : e < 10) :
    digitsToNat [digitChar a, digitChar b, digitChar c, digitChar e] =
      ((a * 10 + b) * 10 + c) * 10 + e := by
  simp [digitsToNat, digitVal_digitChar ha, digitVal_digitChar hb,
    digitVal_digitChar hc, digitVal_digitChar he]

/-- Parsing back a formatted date recovers the date, with seconds zeroed:
the `"%Y-%m-%d %H:%M"` format has no seconds field. -/
lemma parse_formatDateMinute (d : Date) (hy : d.year ≤ 9999)
    (hmo : d.month ≤ 99) (hd : d.day ≤ 99) (hh : d.hour ≤ 99)
    (hmi : d.minute ≤ 99) :
    parseDateMinute (formatDateMinute d) = some (truncToMinute d) := by
  rw [formatDateMinute_explicit, parseDateMinute_explicit]
  rw [if_pos]
  · rw [digitsToNat_four (by omega) (by omega) (by omega) (by omega),
      digitsToNat_two (by omega) (by omega), digitsToNat_two (by omega) (by omega),
      digitsToNat_two (by omega) (by omega), digitsToNat_two (by omega) (by omega)]
    unfold truncToMinute
    simp only [Option.some.injEq, Date.mk.injEq]
    refine ⟨by omega, by omega, by omega, by omega, by omega, trivial⟩
  · refine List.all_eq_true.mpr ?_
    intro x hx
    fin_cases hx <;> exact isDigit_digitChar (by omega)

/-- Write-then-read reproduces the store with dates truncated to minutes. -/
lemma load_save_data (expenses : List Expense)
    (hvalid : ∀ e ∈ expenses, e.date.year ≤ 9999 ∧ e.date.month ≤ 99 ∧
      e.date.day ≤ 99 ∧ e.date.hour ≤ 99 ∧ e.date.minute ≤ 99) :
    load_data (save_data expenses) = some (expenses.map truncExpense) := by
  induction expenses with
  | nil => rfl
  | cons e rest ih =>
      obtain ⟨h1, h2, h3, h4, h5⟩ := hvalid e (List.mem_cons_self e rest)
      have hrest := ih (fun x hx => hvalid x (List.mem_cons_of_mem e hx))
      simp only [save_data, List.map_cons] at hrest ⊢
      unfold load_data
      rw [parse_formatDateMinute e.date h1 h2 h3 h4 h5]
      rw [show load_data (List.map (fun e =>
          (⟨formatDateMinute e.date, e.description, e.category, e.amount⟩ : CsvRow))
          rest) = some (List.map truncExpense rest) from hrest]
      rfl

/-- C2, counterexample: a store holding one transaction whose timestamp
carries seconds (`2024-05-06 07:08:30`) does not survive the write-then-read
round-trip unchanged — the timestamp comes back truncated to
`2024-05-06 07:08:00`, so not every field of every transaction is
reproduced for every non-empty collection. -/
theorem c2_roundtrip_counterexample :
    load_data (save_data [⟨⟨2024, 5, 6, 7, 8, 30⟩, "a", "Food", 1⟩]) =
      some [⟨⟨2024, 5, 6, 7, 8, 0⟩, "a", "Food", 1⟩] ∧
    (some [(⟨⟨2024, 5, 6, 7, 8, 0⟩, "a", "Food", 1⟩ : Expense)] ≠
      some [⟨⟨2024, 5, 6, 7, 8, 30⟩, "a", "Food", 1⟩]) := by
  exact ⟨by decide, by decide⟩

/-- C2, amended: for every non-empty transaction collection (with dates
representable in the persisted `"%Y-%m-%d %H:%M"` format) and every
non-empty budget mapping, writing then reading reproduces every field of
every transaction and every budget entry, except that transaction
timestamps come back truncated to minute precision (the persisted date
format drops seconds); collections whose timestamps already have minute
precision round-trip identically. -/
theorem c2_roundtrip (expenses : List Expense) (budgets : Budgets)
    (hne : expenses ≠ []) (hbne : budgets ≠ [])
    (hvalid : ∀ e ∈ expenses, e.date.year ≤ 9999 ∧ e.date.month ≤ 99 ∧
      e.date.day ≤ 99 ∧ e.date.hour ≤ 99 ∧ e.date.minute ≤ 99) :
    load_data (save_data expenses) = some (expenses.map truncExpense) ∧
    load_budgets (save_budgets budgets) = budgets ∧
    ((∀ e ∈ expenses, e.date.second = 0) →
      load_data (save_data expenses) = some expenses) := by
  refine ⟨load_save_data expenses hvalid, rfl, ?_⟩
  intro hsec
  rw [load_save_data expenses hvalid]
  congr 1
  conv_rhs => rw [show expenses = expenses.map id from (List.map_id expenses).symm]
  refine List.map_congr_left ?_
  intro e he
  have : e.date.second = 0 := hsec e he
  unfold truncExpense truncToMinute
  cases e with
  | mk d desc cat amt =>
      cases d
      simp_all

/-- C2, witness: a one-transaction store at minute precision and a
one-entry budget mapping round-trip unchanged. -/
theorem c2_roundtrip_witness :
    load_data (save_data [⟨⟨2024, 5, 6, 7, 8, 0⟩, "a", "Food", 2⟩]) =
      some [⟨⟨2024, 5, 6, 7, 8, 0⟩, "a", "Food", 2⟩] ∧
    load_budgets (save_budgets [("Food", 3)]) = [("Food", 3)] := by
  have h := c2_roundtrip [⟨⟨2024, 5, 6, 7, 8, 0⟩, "a", "Food", 2⟩] [("Food", 3)]
    (by decide) (by decide) (by decide)
  exact ⟨h.2.2 (by decide), h.2.1⟩

/-- C7: `view_expenses`'s filters are conjunctive — its filtered list is a
single `filter` by the conjunction of the (truthy) category, month and year
tests, with the category matched exactly — and filtering by a category from
the enum that appears in no transaction yields the empty list, a zero
total, and an empty per-category summary, never an error. -/
theorem c7_category_filter (expenses : List Expense) (fc : Option String)
    (month year : Option ℕ) (c : String) (hc : c ∈ categories)
    (habs : ∀ e ∈ expenses, e.category ≠ c) :
    view_filtered expenses fc month year =
      expenses.filter (fun e =>
        (!strTruthy fc || e.category == fc.getD "") &&
        ((!truthy month || e.date.month == month.getD 0) &&
         (!truthy year || e.date.year == year.getD 0))) ∧
    view_filtered expenses (some c) month year = [] ∧
    view_total expenses (some c) month year = 0 ∧
    get_summary (view_filtered expenses (some c) month year) month year =
      ([], 0) := by
  have hcne : c ≠ "" := by fin_cases hc <;> decide
  have hconj : ∀ (fc' : Option String), view_filtered expenses fc' month year =
      expenses.filter (fun e =>
        (!strTruthy fc' || e.category == fc'.getD "") &&
        ((!truthy month || e.date.month == month.getD 0) &&
         (!truthy year || e.date.year == year.getD 0))) := by
    intro fc'
    unfold view_filtered
    by_cases h1 : strTruthy fc' <;> by_cases h2 : (truthy month || truthy year) = true
    · simp only [h1, if_true, h2, List.filter_filter]
      refine List.filter_congr ?_
      intro e he
      simp [Bool.and_comm]
    · have hm : truthy month = false := by
        rcases Bool.or_eq_false_iff.mp (Bool.eq_false_iff.mpr h2) with ⟨hm, _⟩
        exact hm
      have hy : truthy year = false := by
        rcases Bool.or_eq_false_iff.mp (Bool.eq_false_iff.mpr h2) with ⟨_, hy⟩
        exact hy
      simp [h1, hm, hy]
    · have h1f : strTruthy fc' = false := Bool.eq_false_iff.mpr h1
      simp only [h1f, Bool.false_eq_true, if_false, h2, if_true]
      simp
    · have h1f : strTruthy fc' = false := Bool.eq_false_iff.mpr h1
      have hm : truthy month = false := by
        rcases Bool.or_eq_false_iff.mp (Bool.eq_false_iff.mpr h2) with ⟨hm, _⟩
        exact hm
      have hy : truthy year = false := by
        rcases Bool.or_eq_false_iff.mp (Bool.eq_false_iff.mpr h2) with ⟨_, hy⟩
        exact hy
      simp [h1f, hm, hy]
  have hnil : view_filtered expenses (some c) month year = [] := by
    rw [hconj (some c)]
    refine List.filter_eq_nil_iff.mpr ?_
    intro e he
    have : e.category ≠ c := habs e he
    simp [strTruthy, hcne, this]
  refine ⟨hconj fc, hnil, ?_, ?_⟩
  · rw [view_total, hnil]
    rfl
  · rw [hnil]
    rfl

/-- C7, witness: with a one-`Food`-expense store, filtering by the enum
category `Housing` (present in no transaction) yields the empty list, a
zero total and an empty summary. -/
theorem c7_category_filter_witness :
    view_filtered [⟨⟨2024, 1, 1, 0, 0, 0⟩, "a", "Food", 5⟩] (some "Housing")
      none none = [] ∧
    view_total [⟨⟨2024, 1, 1, 0, 0, 0⟩, "a", "Food", 5⟩] (some "Housing")
      none none = 0 ∧
    get_summary (view_filtered [⟨⟨2024, 1, 1, 0, 0, 0⟩, "a", "Food", 5⟩]
      (some "Housing") none none) none none = ([], 0) := by
  exact (c7_category_filter [⟨⟨2024, 1, 1, 0, 0, 0⟩, "a", "Food", 5⟩]
    (some "Housing") none none "Housing" (by decide) (by decide)).2

/-- The value sum of `monthly_report`'s `by_category` accumulation. -/
lemma sumValues_category_foldl (l : List Expense) (acc : List (String × ℚ)) :
    sumValues (l.foldl (fun a e => addToSummary a e.category e.amount) acc) =
      sumValues acc + (l.map Expense.amount).sum := by
  induction l generalizing acc with
  | nil => simp
  | cons e rest ih =>
      simp [ih, sumValues_addToSummary]
      ring

/-- C9: when no transaction matches the (defaulted) requested month and
year, `monthly_report` reports "no expenses" and the report directory —
including any previously generated report for another month — is left
unchanged. -/
theorem c9_monthly_report_no_data (expenses : List Expense)
    (month year : Option ℕ) (now : Date) (files : List (String × Report))
    (h : expenses.filter (fun e =>
        e.date.month == (if truthy month then month.getD 0 else now.month) &&
        e.date.year == (if truthy year then year.getD 0 else now.year)) = []) :
    (∃ msg, (monthly_report expenses month year now files).1 =
      ReportOutcome.noData msg) ∧
    (monthly_report expenses month year now files).2 = files := by
  refine ⟨⟨"No expenses for " ++
      month_name (if truthy month then month.getD 0 else now.month) ++ " " ++
      toString (if truthy year then year.getD 0 else now.year), ?_⟩, ?_⟩ <;>
    simp [monthly_report, h]

/-- C9, witness: requesting February 2024 on a January-only store reports
"no data" and leaves the previously written January report untouched. -/
theorem c9_monthly_report_no_data_witness :
    (∃ msg, (monthly_report [⟨⟨2024, 1, 1, 0, 0, 0⟩, "a", "Food", 5⟩]
      (some 2) (some 2024) ⟨2024, 3, 1, 0, 0, 0⟩
      [("expense_report_2024_1.json", ⟨"January", 2024, 5, [("Food", 5)], []⟩)]).1 =
        ReportOutcome.noData msg) ∧
    (monthly_report [⟨⟨2024, 1, 1, 0, 0, 0⟩, "a", "Food", 5⟩]
      (some 2) (some 2024) ⟨2024, 3, 1, 0, 0, 0⟩
      [("expense_report_2024_1.json", ⟨"January", 2024, 5, [("Food", 5)], []⟩)]).2 =
      [("expense_report_2024_1.json", ⟨"January", 2024, 5, [("Food", 5)], []⟩)] := by
  exact c9_monthly_report_no_data [⟨⟨2024, 1, 1, 0, 0, 0⟩, "a", "Food", 5⟩]
    (some 2) (some 2024) ⟨2024, 3, 1, 0, 0, 0⟩
    [("expense_report_2024_1.json", ⟨"January", 2024, 5, [("Food", 5)], []⟩)]
    (by decide)

/-- C10: every report `monthly_report` writes is internally consistent:
its `total` equals the value sum of its `by_category` mapping, equals the
sum of its itemized amounts, and its itemized list is exactly the matching
transactions of the requested month and year, in store order. -/
theorem c10_report_consistency (expenses : List Expense)
    (month year : Option ℕ) (now : Date) (files : List (String × Report))
    (h : expenses.filter (fun e =>
        e.date.month == (if truthy month then month.getD 0 else now.month) &&
        e.date.year == (if truthy year then year.getD 0 else now.year)) ≠ []) :
    ∃ fname r, (monthly_report expenses month year now files).1 =
        ReportOutcome.written fname r ∧
      r.total = sumValues r.by_category ∧
      r.total = (r.expenses.map ReportItem.amount).sum ∧
      r.expenses = (expenses.filter (fun e =>
        e.date.month == (if truthy month then month.getD 0 else now.month) &&
        e.date.year == (if truthy year then year.getD 0 else now.year))).map
          mkReportItem := by
  have hempty : (expenses.filter (fun e =>
      e.date.month == (if truthy month then month.getD 0 else now.month) &&
      e.date.year == (if truthy year then year.getD 0 else now.year))).isEmpty =
      false := by
    rw [List.isEmpty_eq_false]
    exact h
  have hrep : (monthly_report expenses month year now files).1 =
      ReportOutcome.written
        ("expense_report_" ++
          toString (if truthy year then year.getD 0 else now.year) ++ "_" ++
          toString (if truthy month then month.getD 0 else now.month) ++ ".json")
        ⟨month_name (if truthy month then month.getD 0 else now.month),
         (if truthy year then year.getD 0 else now.year),
         ((expenses.filter (fun e =>
            e.date.month == (if truthy month then month.getD 0 else now.month) &&
            e.date.year == (if truthy year then year.getD 0 else now.year))).map
              Expense.amount).sum,
         (expenses.filter (fun e =>
            e.date.month == (if truthy month then month.getD 0 else now.month) &&
            e.date.year == (if truthy year then year.getD 0 else now.year))).foldl
              (fun acc e => addToSummary acc e.category e.amount) [],
         (expenses.filter (fun e =>
            e.date.month == (if truthy month then month.getD 0 else now.month) &&
            e.date.year == (if truthy year then year.getD 0 else now.year))).map
              mkReportItem⟩ := by
    simp [monthly_report, hempty]
  refine ⟨_, _, hrep, ?_, ?_, ?_⟩
  · show (_ : ℚ) = _
    rw [sumValues_category_foldl]
    simp [sumValues]
  · show (_ : ℚ) = _
    simp only [List.map_map]
    rfl
  · rfl

/-- C10, witness: the January 2024 report over a two-expense store is
written with consistent totals and exactly the two items in store order. -/
theorem c10_report_consistency_witness :
    ∃ fname r, (monthly_report
        [⟨⟨2024, 1, 1, 0, 0, 0⟩, "a", "Food", 5⟩,
         ⟨⟨2024, 1, 2, 0, 0, 0⟩, "b", "Other", 3⟩]
        (some 1) (some 2024) ⟨2024, 3, 1, 0, 0, 0⟩ []).1 =
        ReportOutcome.written fname r ∧
      r.total = sumValues r.by_category ∧
      r.total = (r.expenses.map ReportItem.amount).sum ∧
      r.expenses = (List.filter (fun e =>
        e.date.month == (if truthy (some 1) then (some 1).getD 0
          else (⟨2024, 3, 1, 0, 0, 0⟩ : Date).month) &&
        e.date.year == (if truthy (some 2024) then (some 2024).getD 0
          else (⟨2024, 3, 1, 0, 0, 0⟩ : Date).year))
        [⟨⟨2024, 1, 1, 0, 0, 0⟩, "a", "Food", 5⟩,
         ⟨⟨2024, 1, 2, 0, 0, 0⟩, "b", "Other", 3⟩]).map mkReportItem := by
  exact c10_report_consistency
    [⟨⟨2024, 1, 1, 0, 0, 0⟩, "a", "Food", 5⟩,
     ⟨⟨2024, 1, 2, 0, 0, 0⟩, "b", "Other", 3⟩]
    (some 1) (some 2024) ⟨2024, 3, 1, 0, 0, 0⟩ [] (by decide)

/-! ### Order lemmas on month labels for C8 -/

lemma charsLe_total (as bs : List Char) :
    charsLe as bs = true ∨ charsLe bs as = true := by
  induction as generalizing bs with
  | nil => left; rfl
  | cons a as ih =>
      cases bs with
      | nil => right; rfl
      | cons b bs =>
          rcases lt_trichotomy a b with h | h | h
          · left; simp [charsLe, h]
          · subst h
            rcases ih bs with h' | h'
            · left; simp [charsLe, h']
            · right; simp [charsLe, h']
          · right; simp [charsLe, h]

lemma charsLe_trans : ∀ {as bs cs : List Char}, charsLe as bs = true →
    charsLe bs cs = true → charsLe as cs = true
  | [], _, _, _, _ => rfl
  | _ :: _, [], _, h1, _ => by simp [charsLe] at h1
  | _ :: _, _ :: _, [], _, h2 => by simp [charsLe] at h2
  | a :: as, b :: bs, c :: cs, h1, h2 => by
      simp only [charsLe] at h1 h2 ⊢
      rcases lt_trichotomy a b with hab | hab | hab
      · rcases lt_trichotomy b c with hbc | hbc | hbc
        · rw [if_pos (lt_trans hab hbc)]
        · subst hbc
          rw [if_pos hab]
        · rw [if_neg (not_lt.mpr hbc.le), if_neg (ne_of_gt hbc)] at h2
          exact absurd h2 (by simp)
      · subst hab
        rw [if_neg (lt_irrefl a), if_pos rfl] at h1
        rcases lt_trichotomy a c with hac | hac | hac
        · rw [if_pos hac]
        · subst hac
          rw [if_neg (lt_irrefl a), if_pos rfl] at h2 ⊢
          exact charsLe_trans h1 h2
        · rw [if_neg (not_lt.mpr hac.le), if_neg (ne_of_gt hac)] at h2
          exact absurd h2 (by simp)
      · rw [if_neg (not_lt.mpr hab.le), if_neg (ne_of_gt hab)] at h1
        exact absurd h1 (by simp)

instance : IsTrans String labelLe :=
  ⟨fun _ _ _ h1 h2 => charsLe_trans h1 h2⟩

instance : IsTotal String labelLe :=
  ⟨fun s t => charsLe_total s.data t.data⟩

lemma digitChar_lt_iff {a b : ℕ} (ha : a < 10) (hb : b < 10) :
    digitChar a < digitChar b ↔ a < b := by
  interval_cases a <;> interval_cases b <;> decide

lemma digitChar_eq_iff {a b : ℕ} (ha : a < 10) (hb : b < 10) :
    digitChar a = digitChar b ↔ a = b := by
  interval_cases a <;> interval_cases b <;> decide

lemma charsLe_digit_cons {a b : ℕ} (ha : a < 10) (hb : b < 10)
    (as bs : List Char) :
    charsLe (digitChar a :: as) (digitChar b :: bs) =
      if a < b then true else if a = b then charsLe as bs else false := by
  simp only [charsLe]
  by_cases h : a < b
  · rw [if_pos ((digitChar_lt_iff ha hb).mpr h), if_pos h]
  · rw [if_neg (fun hc => h ((digitChar_lt_iff ha hb).mp hc)), if_neg h]
    by_cases h' : a = b
    · rw [if_pos ((digitChar_eq_iff ha hb).mpr h'), if_pos h']
    · rw [if_neg (fun hc => h' ((digitChar_eq_iff ha hb).mp hc)), if_neg h']

lemma charsLe_same_cons (c : Char) (as bs : List Char) :
    charsLe (c :: as) (c :: bs) = charsLe as bs := by
  simp [charsLe]

/-- The character list of a `"%Y-%m"` label, spelled out. -/
lemma monthLabel_data (d : Date) :
    (monthLabel d).data =
      [digitChar (d.year / 1000), digitChar (d.year / 100 % 10),
       digitChar (d.year / 10 % 10), digitChar (d.year % 10), '-',
       digitChar (d.month / 10), digitChar (d.month % 10)] := rfl

/-- Lexicographic order on two `"%Y-%m"` labels is exactly chronological
order of their (year, month) pairs: the fields are zero-padded to fixed
width, so string comparison compares the numbers. -/
lemma labelLe_monthLabel_iff (d1 d2 : Date) (hy1 : d1.year ≤ 9999)
    (hy2 : d2.year ≤ 9999) (hm1 : d1.month ≤ 99) (hm2 : d2.month ≤ 99) :
    labelLe (monthLabel d1) (monthLabel d2) ↔
      (d1.year < d2.year ∨ (d1.year = d2.year ∧ d1.month ≤ d2.month)) := by
  unfold labelLe
  rw [monthLabel_data, monthLabel_data]
  rw [@charsLe_digit_cons (d1.year / 1000) (d2.year / 1000)
      (by omega) (by omega) _ _,
    @charsLe_digit_cons (d1.year / 100 % 10) (d2.year / 100 % 10)
      (by omega) (by omega) _ _,
    @charsLe_digit_cons (d1.year / 10 % 10) (d2.year / 10 % 10)
      (by omega) (by omega) _ _,
    @charsLe_digit_cons (d1.year % 10) (d2.year % 10)
      (by omega) (by omega) _ _,
    charsLe_same_cons,
    @charsLe_digit_cons (d1.month / 10) (d2.month / 10)
      (by omega) (by omega) _ _,
    @charsLe_digit_cons (d1.month % 10) (d2.month % 10)
      (by omega) (by omega) _ _]
  by_cases h1 : d1.year / 1000 < d2.year / 1000
  · rw [if_pos h1]
    exact iff_of_true rfl (by omega)
  rw [if_neg h1]
  by_cases e1 : d1.year / 1000 = d2.year / 1000
  case neg => rw [if_neg e1]; exact iff_of_false (by simp) (by omega)
  rw [if_pos e1]
  by_cases h2 : d1.year / 100 % 10 < d2.year / 100 % 10
  · rw [if_pos h2]
    exact iff_of_true rfl (by omega)
  rw [if_neg h2]
  by_cases e2 : d1.year / 100 % 10 = d2.year / 100 % 10
  case neg => rw [if_neg e2]; exact iff_of_false (by simp) (by omega)
  rw [if_pos e2]
  by_cases h3 : d1.year / 10 % 10 < d2.year / 10 % 10
  · rw [if_pos h3]
    exact iff_of_true rfl (by omega)
  rw [if_neg h3]
  by_cases e3 : d1.year / 10 % 10 = d2.year / 10 % 10
  case neg => rw [if_neg e3]; exact iff_of_false (by simp) (by omega)
  rw [if_pos e3]
  by_cases h4 : d1.year % 10 < d2.year % 10
  · rw [if_pos h4]
    exact iff_of_true rfl (by omega)
  rw [if_neg h4]
  by_cases e4 : d1.year % 10 = d2.year % 10
  case neg => rw [if_neg e4]; exact iff_of_false (by simp) (by omega)
  rw [if_pos e4]
  by_cases h5 : d1.month / 10 < d2.month / 10
  · rw [if_pos h5]
    exact iff_of_true rfl (by omega)
  rw [if_neg h5]
  by_cases e5 : d1.month / 10 = d2.month / 10
  case neg => rw [if_neg e5]; exact iff_of_false (by simp) (by omega)
  rw [if_pos e5]
  by_cases h6 : d1.month % 10 < d2.month % 10
  · rw [if_pos h6]
    exact iff_of_true rfl (by omega)
  rw [if_neg h6]
  by_cases e6 : d1.month % 10 = d2.month % 10
  case neg => rw [if_neg e6]; exact iff_of_false (by simp) (by omega)
  rw [if_pos e6]
  exact iff_of_true rfl (by omega)

/-- C8: `spending_trends` produces one point per distinct month label of
the history — a label appears among the points exactly when some
transaction carries it, and no label repeats — each point's total is the
sum over the whole history of the amounts with that label (regardless of
category), the points are strictly ascending in the label order, label
order coincides with chronological (year, month) order for representable
dates, and the two-month scenario yields
`[("2024-01", 150), ("2024-02", 30)]`. -/
theorem c8_spending_trends (expenses : List Expense) :
    (∀ p ∈ spending_trends expenses, p.2 = labelTotal expenses p.1) ∧
    ((spending_trends expenses).map Prod.fst).Nodup ∧
    (∀ l, l ∈ (spending_trends expenses).map Prod.fst ↔
      l ∈ expenses.map (fun e => monthLabel e.date)) ∧
    (spending_trends expenses).Pairwise (fun p q => labelLe p.1 q.1 ∧ p.1 ≠ q.1) ∧
    (∀ d1 d2 : Date, d1.year ≤ 9999 → d2.year ≤ 9999 → d1.month ≤ 99 →
      d2.month ≤ 99 →
      (labelLe (monthLabel d1) (monthLabel d2) ↔
        (d1.year < d2.year ∨ (d1.year = d2.year ∧ d1.month ≤ d2.month)))) ∧
    spending_trends
      [⟨⟨2024, 1, 5, 0, 0, 0⟩, "a", "Food", 100⟩,
       ⟨⟨2024, 1, 20, 0, 0, 0⟩, "b", "Other", 50⟩,
       ⟨⟨2024, 2, 3, 0, 0, 0⟩, "c", "Food", 30⟩] =
      [("2024-01", 150), ("2024-02", 30)] := by
  have hfst : (spending_trends expenses).map Prod.fst =
      ((expenses.map (fun e => monthLabel e.date)).dedup).insertionSort labelLe := by
    unfold spending_trends
    rw [List.map_map]
    exact List.map_id _
  have hperm : (((expenses.map (fun e => monthLabel e.date)).dedup).insertionSort
      labelLe).Perm ((expenses.map (fun e => monthLabel e.date)).dedup) :=
    List.perm_insertionSort _ _
  have hnodup : (((expenses.map (fun e => monthLabel e.date)).dedup).insertionSort
      labelLe).Nodup :=
    hperm.nodup_iff.mpr (List.nodup_dedup _)
  refine ⟨?_, ?_, ?_, ?_, ?_, ?_⟩
  · intro p hp
    unfold spending_trends at hp
    rcases List.mem_map.mp hp with ⟨l, -, rfl⟩
    rfl
  · rw [hfst]
    exact hnodup
  · intro l
    rw [hfst]
    simp [List.mem_dedup]
  · have hsorted : (((expenses.map (fun e => monthLabel e.date)).dedup).insertionSort
        labelLe).Sorted labelLe := List.sorted_insertionSort _ _
    have hcomb := hsorted.and hnodup
    unfold spending_trends
    exact List.pairwise_map.mpr hcomb
  · exact fun d1 d2 h1 h2 h3 h4 => labelLe_monthLabel_iff d1 d2 h1 h2 h3 h4
  · show [("2024-01",
        labelTotal [⟨⟨2024, 1, 5, 0, 0, 0⟩, "a", "Food", 100⟩,
          ⟨⟨2024, 1, 20, 0, 0, 0⟩, "b", "Other", 50⟩,
          ⟨⟨2024, 2, 3, 0, 0, 0⟩, "c", "Food", 30⟩] "2024-01"),
      ("2024-02",
        labelTotal [⟨⟨2024, 1, 5, 0, 0, 0⟩, "a", "Food", 100⟩,
          ⟨⟨2024, 1, 20, 0, 0, 0⟩, "b", "Other", 50⟩,
          ⟨⟨2024, 2, 3, 0, 0, 0⟩, "c", "Food", 30⟩] "2024-02")] =
      [("2024-01", 150), ("2024-02", 30)]
    have h1 : labelTotal [⟨⟨2024, 1, 5, 0, 0, 0⟩, "a", "Food", 100⟩,
        ⟨⟨2024, 1, 20, 0, 0, 0⟩, "b", "Other", 50⟩,
        ⟨⟨2024, 2, 3, 0, 0, 0⟩, "c", "Food", 30⟩] "2024-01" = 150 := by
      show (100 : ℚ) + (50 + 0) = 150
      norm_num
    have h2 : labelTotal [⟨⟨2024, 1, 5, 0, 0, 0⟩, "a", "Food", 100⟩,
        ⟨⟨2024, 1, 20, 0, 0, 0⟩, "b", "Other", 50⟩,
        ⟨⟨2024, 2, 3, 0, 0, 0⟩, "c", "Food", 30⟩] "2024-02" = 30 := by
      show (30 : ℚ) + 0 = 30
      norm_num
    rw [h1, h2]

/-- C8, witness: the chronological-order conjunct applied at January and
February 2024 — the January label precedes the February label. -/
theorem c8_spending_trends_witness :
    labelLe (monthLabel ⟨2024, 1, 5, 0, 0, 0⟩) (monthLabel ⟨2024, 2, 3, 0, 0, 0⟩) := by
  exact ((c8_spending_trends []).2.2.2.2.1 ⟨2024, 1, 5, 0, 0, 0⟩
    ⟨2024, 2, 3, 0, 0, 0⟩ (by norm_num) (by norm_num) (by norm_num)
    (by norm_num)).mpr (by norm_num)
